import Mathlib

/-!
# Verification of the transaction-pool facade and node glue code

Shallow embedding of:
* the transaction-pool facade of `node/bench/src/construct.rs`
  (`PoolTransaction`, `Transactions`, `TransactionsIterator`);
* the benchmark stubs of `node/bench/src/construct.rs`,
  `node/bench/src/txpool.rs` and `bin/node/bench/src/import.rs`;
* the chain-genesis builder `testnet_genesis` of `node/cli/src/chain_spec.rs`;
* the chain-spec selection logic (`Alternative`, `load_spec`) of
  `node/cli/src/chain_spec.rs` and the CLI dispatch of
  `node/cli/src/command.rs` (`Cli::load_spec`, the `PurgeChain` arm).

Modelling conventions:
* Rust panics (`unimplemented!()`, explicit `panic!`) are modelled by the
  sum type `PanicOr`: `.panicked msg` is a call that diverges with a panic
  and never returns, `.ret a` a normal return.  This is kept distinct from
  `Except`, which models Rust `Result` values, so that "panics" and
  "returns `Err`" are different observations.
* Byte blobs (`OpaqueExtrinsic`, wasm binaries, `Vec<u8>` tags) are lists
  of naturals; 256-bit hashes (`node_primitives::Hash`, i.e. `H256`) are
  naturals (with `Hash.zero` for `H256::zero()`); `u64`/`u128` quantities
  that the code never overflows (the balance `1 << 60`, the grandpa
  authority weight `1`) are naturals.
* `Arc<T>` is erased to `T` (shared immutable handles with value
  semantics), and `Vec<T>` / `std::vec::IntoIter<T>` to `List T`.
* Types that the repository only passes through opaquely (the benchmark
  `Mode`, the external chain-spec object, `TransactionSource`, the
  transaction-status stream) are universally quantified type parameters of
  the operations that ignore them.
* Methods taking `&self` cannot mutate the receiver; methods taking
  `&mut self` are modelled in state-passing style, returning the updated
  receiver next to their result, so frame conditions are statable.
-/

/-- Outcome of a Rust computation that may panic: `.panicked msg` models a
panic (e.g. `unimplemented!()` panics with message "not implemented") that
aborts and never returns, while `.ret a` is a normal return of `a`. -/
inductive PanicOr (α : Type) where
  | panicked (msg : String) : PanicOr α
  | ret (a : α) : PanicOr α
deriving DecidableEq, Repr

/-- `node_primitives::Hash` (`H256`, a 256-bit hash) modelled as a natural
number; only `Hash::zero()` is ever constructed by the embedded code. -/
abbrev Hash := Nat

/-- `node_primitives::Hash::zero()`: the all-zero 256-bit hash. -/
def Hash.zero : Hash := 0

/-- `sp_runtime::OpaqueExtrinsic`: an opaque encoded transaction blob,
modelled as its list of bytes. -/
abbrev OpaqueExtrinsic := List Nat

/-- External `sc_transaction_pool_api::error::Error`; the embedded code
never constructs one, so its carrier is irrelevant and kept abstract as a
string. -/
abbrev PoolError := String

/-- `construct.rs` lines 77-81: `PoolTransaction` wraps a transaction blob
(`data: Arc<OpaqueExtrinsic>`) and a hash (`hash: node_primitives::Hash`). -/
structure PoolTransaction where
  data : OpaqueExtrinsic
  hash : Hash
deriving DecidableEq, Repr

namespace PoolTransaction

/-- `construct.rs` lines 83-87, `impl From<OpaqueExtrinsic> for
PoolTransaction`: `PoolTransaction { data: Arc::from(e), hash:
node_primitives::Hash::zero() }`. -/
def fromExtrinsic (e : OpaqueExtrinsic) : PoolTransaction :=
  { data := e, hash := Hash.zero }

/-- `construct.rs` lines 93-95: `fn data(&self) -> &Self::Transaction {
&self.data }`. -/
def getData (t : PoolTransaction) : OpaqueExtrinsic := t.data

/-- `construct.rs` lines 97-99: `fn hash(&self) -> &Self::Hash {
&self.hash }`. -/
def getHash (t : PoolTransaction) : Hash := t.hash

/-- `construct.rs` lines 101-103: `fn priority(&self) -> &u64 {
unimplemented!() }`. -/
def priority (_t : PoolTransaction) : PanicOr Nat :=
  .panicked "not implemented"

/-- `construct.rs` lines 105-107: `fn longevity(&self) -> &u64 {
unimplemented!() }`. -/
def longevity (_t : PoolTransaction) : PanicOr Nat :=
  .panicked "not implemented"

/-- `construct.rs` lines 109-111: `fn requires(&self) -> &[Vec<u8>] {
unimplemented!() }`. -/
def requires (_t : PoolTransaction) : PanicOr (List (List Nat)) :=
  .panicked "not implemented"

/-- `construct.rs` lines 113-115: `fn provides(&self) -> &[Vec<u8>] {
unimplemented!() }`. -/
def provides (_t : PoolTransaction) : PanicOr (List (List Nat)) :=
  .panicked "not implemented"

/-- `construct.rs` lines 117-119: `fn is_propagable(&self) -> bool {
unimplemented!() }`. -/
def is_propagable (_t : PoolTransaction) : PanicOr Bool :=
  .panicked "not implemented"

end PoolTransaction

/-- `construct.rs` line 123: `pub struct Transactions(Vec<Arc<PoolTransaction>>)`. -/
structure Transactions where
  txs : List PoolTransaction
deriving DecidableEq, Repr

/-- `construct.rs` line 124: `pub struct
TransactionsIterator(std::vec::IntoIter<Arc<PoolTransaction>>)`; the
`IntoIter` is represented by the list of elements it has not yet yielded. -/
structure TransactionsIterator where
  remaining : List PoolTransaction
deriving DecidableEq, Repr

namespace TransactionsIterator

/-- `construct.rs` lines 126-132, `impl Iterator for TransactionsIterator`:
`fn next(&mut self) -> Option<Self::Item> { self.0.next() }`.  State-passing
form: the yielded element (if any) together with the advanced iterator. -/
def next (it : TransactionsIterator) :
    Option PoolTransaction × TransactionsIterator :=
  match it.remaining with
  | [] => (none, ⟨[]⟩)
  | t :: rest => (some t, ⟨rest⟩)

/-- Fuelled driver loop: call `next` repeatedly (at most `fuel` times),
collecting the yielded elements until `next` returns `none`. -/
def collectGo : Nat → TransactionsIterator → List PoolTransaction
  | 0, _ => []
  | fuel + 1, it =>
    match it.next with
    | (none, _) => []
    | (some t, it') => t :: collectGo fuel it'

/-- The full sequence an iterator yields when driven to exhaustion via
`next` (the fuel `it.remaining.length` suffices, as proved below). -/
def collect (it : TransactionsIterator) : List PoolTransaction :=
  collectGo it.remaining.length it

/-- `construct.rs` lines 134-136, `impl ReadyTransactions for
TransactionsIterator`: `fn report_invalid(&mut self, _tx: &Self::Item) {}` —
an empty body, so the receiver is returned unchanged. -/
def report_invalid (it : TransactionsIterator) (_tx : PoolTransaction) :
    TransactionsIterator :=
  it

end TransactionsIterator

namespace Transactions

/-- `construct.rs` lines 146-153: `async fn submit_at(&self, _at, _source,
_xts) -> Result<Vec<Result<Hash, Error>>, Error> { unimplemented!() }`.
The unused `TransactionSource` argument is an arbitrary type `S`. -/
def submit_at (_pool : Transactions) (_at : Hash) {S : Type} (_source : S)
    (_xts : List OpaqueExtrinsic) :
    PanicOr (Except PoolError (List (Except PoolError Hash))) :=
  .panicked "not implemented"

/-- `construct.rs` lines 156-163: `async fn submit_one(&self, _at, _source,
_xt) -> Result<TxHash<Self>, Error> { unimplemented!() }`. -/
def submit_one (_pool : Transactions) (_at : Hash) {S : Type} (_source : S)
    (_xt : OpaqueExtrinsic) : PanicOr (Except PoolError Hash) :=
  .panicked "not implemented"

/-- `construct.rs` lines 165-172: `async fn submit_and_watch(&self, _at,
_source, _xt) -> Result<Pin<Box<TransactionStatusStreamFor<Self>>>, Error>
{ unimplemented!() }`.  The external status-stream type is an arbitrary
type `W`. -/
def submit_and_watch (_pool : Transactions) (_at : Hash) {S : Type}
    (_source : S) (_xt : OpaqueExtrinsic) {W : Type} :
    PanicOr (Except PoolError W) :=
  .panicked "not implemented"

/-- `construct.rs` lines 174-179: `async fn ready_at(&self, _at) -> Box<dyn
ReadyTransactions<...>> { Box::new(TransactionsIterator(self.0.clone()
.into_iter())) }`.  State-passing form: the returned iterator (over a clone
of the stored vector) next to the pool after the call; `&self` access means
the pool is returned as received. -/
def ready_at (pool : Transactions) (_at : Hash) :
    TransactionsIterator × Transactions :=
  (⟨pool.txs⟩, pool)

/-- `construct.rs` lines 185-191: `fn report_invalid(&self, _at,
_invalid_tx_errors) -> Vec<Arc<Self::InPoolTransaction>> {
Default::default() }`.  The invalidity-report map (`TxInvalidityReportMap`,
a map from tx hash to an optional error) is modelled as an association
list with an abstract error type `E`.  State-passing form as for
`ready_at`. -/
def report_invalid (pool : Transactions) (_at : Option Hash) {E : Type}
    (_invalid_tx_errors : List (Hash × Option E)) :
    List PoolTransaction × Transactions :=
  ([], pool)

end Transactions

/-! ## Chain specification (`node/cli/src/chain_spec.rs`) -/

/-- External Aura authority key (`sp_consensus_aura::sr25519::AuthorityId`),
an opaque public key modelled as a natural number. -/
abbrev AuraId := Nat

/-- External Grandpa authority key (`sp_consensus_grandpa::AuthorityId`),
an opaque public key modelled as a natural number. -/
abbrev GrandpaId := Nat

/-- External `kitchensink_runtime::AccountId`, an opaque account
identifier modelled as a natural number. -/
abbrev AccountId := Nat

/-- `SystemConfig { _config: Default::default() }`: the system genesis
section carries only a phantom default field. -/
structure SystemConfig where
  config_ : Unit
deriving DecidableEq, Repr

/-- `BalancesConfig`: endowed balances plus the `dev_accounts` triple
`(count, balance, optional derivation string)`. -/
structure BalancesConfig where
  balances : List (AccountId × Nat)
  dev_accounts : Option (Nat × Nat × Option String)
deriving DecidableEq, Repr

/-- `AuraConfig`: the list of Aura authorities. -/
structure AuraConfig where
  authorities : List AuraId
deriving DecidableEq, Repr

/-- `GrandpaConfig`: a phantom default field plus the weighted list of
Grandpa authorities (weight is a `u64`). -/
structure GrandpaConfig where
  config_ : Unit
  authorities : List (GrandpaId × Nat)
deriving DecidableEq, Repr

/-- `SudoConfig`: the optional sudo key. -/
structure SudoConfig where
  key : Option AccountId
deriving DecidableEq, Repr

/-- `kitchensink_runtime::RuntimeGenesisConfig`, restricted to the
sections `testnet_genesis` populates.  The Rust field `sudo` is spelled
`sudo_` because `sudo` is reserved in this Lean environment. -/
structure RuntimeGenesisConfig where
  system : SystemConfig
  balances : BalancesConfig
  aura : AuraConfig
  grandpa : GrandpaConfig
  sudo_ : SudoConfig
deriving DecidableEq, Repr

/-- `chain_spec.rs` lines 172-198, `testnet_genesis`: builds the genesis
configuration from the (unused) wasm binary, the `(AuraId, GrandpaId)`
authority pairs, the root key, the endowed accounts and the (unused)
println flag.  `1 << 60` is `2 ^ 60`. -/
def testnet_genesis (_wasm_binary : List Nat)
    (initial_authorities : List (AuraId × GrandpaId)) (root_key : AccountId)
    (endowed_accounts : List AccountId) (_enable_println : Bool) :
    RuntimeGenesisConfig :=
  { system := { config_ := () }
    balances :=
      { balances := endowed_accounts.map (fun k => (k, 2 ^ 60))
        dev_accounts := some (0, 2 ^ 60, none) }
    aura := { authorities := initial_authorities.map (fun x => x.1) }
    grandpa :=
      { config_ := ()
        authorities := initial_authorities.map (fun x => (x.2, 1)) }
    sudo_ := { key := some root_key } }

/-- `chain_spec.rs` lines 125-131: the chain specification option (named
`Alternative` in the source; qualified here because `Alternative` is a
core Lean typeclass). -/
inductive ChainAlternative where
  | Development : ChainAlternative
  | LocalTestnet : ChainAlternative
deriving DecidableEq, Repr

/-- `chain_spec.rs` lines 134-142, `impl From<&str> for Alternative`:
`"dev" | "development"` gives `Development`, `"local" | "local_testnet"`
gives `LocalTestnet`, and every other string hits
`panic!("Invalid chain spec name")`. -/
def ChainAlternative.fromStr (s : String) : PanicOr ChainAlternative :=
  if s = "dev" ∨ s = "development" then .ret .Development
  else if s = "local" ∨ s = "local_testnet" then .ret .LocalTestnet
  else .panicked "Invalid chain spec name"

/-- `chain_spec.rs` lines 267-272, `load_spec`: dispatches on
`Alternative::from(id)` (so an unknown id panics before any `Result` is
produced) and returns the corresponding built-in configuration.
`development_config()` and `local_testnet_config()` build the concrete
specs through external framework calls (`WASM_BINARY`, serde,
`ChainSpec::from_json_bytes`), so their outcomes are parameters
`dev`, `loc : Except String C` over the external chain-spec type `C`. -/
def load_spec {C : Type} (dev loc : Except String C) (id : String) :
    PanicOr (Except String C) :=
  match ChainAlternative.fromStr id with
  | .panicked msg => .panicked msg
  | .ret .Development => .ret dev
  | .ret .LocalTestnet => .ret loc

/-! ## CLI dispatch (`node/cli/src/command.rs`) -/

/-- `command.rs` lines 128-135, `Cli::load_spec` (the `SubstrateCli`
implementation): `"dev"` loads the development config, `"local_testnet"`
the local-testnet config, and ANY other id is treated as a path and loaded
from a JSON file; a failure of either propagates as `Err` via `?`, never
as a panic.  As in `load_spec`, the external constructions are
parameters (`dev`, `loc`, and `from_json_file` for
`ChainSpec::from_json_file`). -/
def Cli_load_spec {C : Type} (dev loc : Except String C)
    (from_json_file : String → Except String C) (id : String) :
    PanicOr (Except String C) :=
  .ret (if id = "dev" then dev
        else if id = "local_testnet" then loc
        else from_json_file id)

/-- Rust `str::starts_with(pat)`: the pattern's characters are a prefix of
the string's characters.  (Lean's built-in `String.startsWith` is
byte-position based and does not reduce definitionally, so the character
level prefix test is used; the two agree on unicode strings.) -/
def strStartsWith (s pat : String) : Bool :=
  pat.data.isPrefixOf s.data

/-- Observable outcome of the `PurgeChain` dispatch arm: either the purge
command `cmd.run(config.database)` was invoked (an external effect,
abstracted as `ranPurge`), or the arm refused with an error message. -/
inductive PurgeOutcome where
  | ranPurge : PurgeOutcome
  | refused (msg : String) : PurgeOutcome
deriving DecidableEq, Repr

/-- `command.rs` lines 229-240, the `Subcommand::PurgeChain` arm: run the
purge iff the loaded chain spec's id starts with `"dev"` or with
`"local"`, otherwise return the error
`"Only development and local testnet chains can be purged."`. -/
def purge_chain_arm (chain_id : String) : PurgeOutcome :=
  if strStartsWith chain_id "dev" || strStartsWith chain_id "local" then
    .ranPurge
  else
    .refused "Only development and local testnet chains can be purged."

/-! ## Benchmark stubs (`construct.rs`, `txpool.rs`, `import.rs`) -/

/-- One nanosecond-count view of `std::time::Duration`;
`Duration::from_secs(s)` is `s * 10 ^ 9` nanoseconds. -/
def Duration.from_secs (s : Nat) : Nat := s * 1000000000

/-- `construct.rs` lines 49-52: the construction benchmark state. -/
structure ConstructionBenchmark where
  database : String
  transactions : String
deriving DecidableEq, Repr

/-- `construct.rs` lines 71-75, `impl core::Benchmark for
ConstructionBenchmark`: `fn run(&mut self, _mode: Mode) -> Duration {
Duration::from_secs(0) }`.  The external `Mode` type is an arbitrary type
`M`; `&mut self` is state-passing, and the body never touches `self`. -/
def ConstructionBenchmark.run (b : ConstructionBenchmark) {M : Type}
    (_mode : M) : Nat × ConstructionBenchmark :=
  (Duration.from_secs 0, b)

/-- `txpool.rs` lines 32-34: the pool benchmark state. -/
structure PoolBenchmark where
  database : String
deriving DecidableEq, Repr

/-- `txpool.rs` lines 52-56, `impl core::Benchmark for PoolBenchmark`:
`fn run(&mut self, _mode: Mode) -> Duration { Duration::from_secs(0) }`. -/
def PoolBenchmark.run (b : PoolBenchmark) {M : Type} (_mode : M) :
    Nat × PoolBenchmark :=
  (Duration.from_secs 0, b)

/-- External `node_primitives::Block`, opaque to the embedded code. -/
abbrev BenchBlock := Unit

/-- `import.rs` lines 53-57: the import benchmark state (its `block` field
has the external `Block` type, which `run` never reads). -/
structure ImportBenchmark where
  database : String
  block : BenchBlock
  block_type : String
deriving DecidableEq, Repr

/-- `import.rs` lines 80-84, `impl core::Benchmark for ImportBenchmark`:
`fn run(&mut self, _mode: Mode) -> Duration { Duration::from_secs(0) }`. -/
def ImportBenchmark.run (b : ImportBenchmark) {M : Type} (_mode : M) :
    Nat × ImportBenchmark :=
  (Duration.from_secs 0, b)

/-! ## Helper lemmas -/

/-- Driving `next` with at least `remaining.length` fuel yields exactly the
remaining elements. -/
theorem TransactionsIterator.collectGo_eq_remaining :
    ∀ (n : Nat) (it : TransactionsIterator), it.remaining.length ≤ n →
      TransactionsIterator.collectGo n it = it.remaining := by
  intro n
  induction n with
  | zero =>
    intro it h
    obtain ⟨l⟩ := it
    cases l with
    | nil => rfl
    | cons a t => simp at h
  | succ n ih =>
    intro it h
    obtain ⟨l⟩ := it
    cases l with
    | nil => rfl
    | cons a t =>
      have ht : (TransactionsIterator.mk t).remaining.length ≤ n := by
        simpa using Nat.le_of_succ_le_succ h
      simp [TransactionsIterator.collectGo, TransactionsIterator.next,
        ih _ ht]

/-- The sequence an iterator yields via `next` is its remaining list. -/
theorem TransactionsIterator.collect_eq_remaining (it : TransactionsIterator) :
    it.collect = it.remaining :=
  TransactionsIterator.collectGo_eq_remaining it.remaining.length it le_rfl

/-! ## Claims -/

/-- C1: for every `Transactions` pool and every block hash, `ready_at`
returns an iterator that — driven to exhaustion through `next` — yields
exactly the pool's stored transaction handles, in their stored order, with
nothing added, dropped, or reordered. -/
theorem ready_at_yields_stored_in_order (pool : Transactions) (a : Hash) :
    ((pool.ready_at a).1).collect = pool.txs := by
  rw [TransactionsIterator.collect_eq_remaining]
  rfl

/-- C3: `ready_at` feeds a fixed batch: any two calls, with any (possibly
different) block-hash arguments, return identical iterators (hence
identical transaction sequences), and a call leaves the pool's stored
collection unchanged. -/
theorem ready_at_fixed_batch_and_pure (pool : Transactions) (a1 a2 : Hash) :
    (pool.ready_at a1).1 = (pool.ready_at a2).1 ∧
    ((pool.ready_at a1).1).collect = ((pool.ready_at a2).1).collect ∧
    (pool.ready_at a1).2 = pool :=
  ⟨rfl, rfl, rfl⟩

/-- C4: every metadata accessor of `PoolTransaction` — `priority`,
`longevity`, `requires`, `provides`, `is_propagable` — is an unimplemented
placeholder: it panics with "not implemented" and never returns a value. -/
theorem pool_transaction_metadata_panics (t : PoolTransaction) :
    t.priority = .panicked "not implemented" ∧
    t.longevity = .panicked "not implemented" ∧
    t.requires = .panicked "not implemented" ∧
    t.provides = .panicked "not implemented" ∧
    t.is_propagable = .panicked "not implemented" ∧
    (∀ v, t.priority ≠ .ret v) ∧
    (∀ v, t.longevity ≠ .ret v) ∧
    (∀ v, t.requires ≠ .ret v) ∧
    (∀ v, t.provides ≠ .ret v) ∧
    (∀ v, t.is_propagable ≠ .ret v) := by
  refine ⟨rfl, rfl, rfl, rfl, rfl, ?_, ?_, ?_, ?_, ?_⟩ <;>
    intro v h <;> cases h

/-- C5: the pool facade's submission operations (`submit_at`, `submit_one`,
`submit_and_watch`) are placeholders: for every pool and every input they
panic with "not implemented" and never return a result — neither `Ok` nor
`Err`. -/
theorem submit_operations_panic (pool : Transactions) (a : Hash)
    {S : Type} (src : S) (xts : List OpaqueExtrinsic)
    (xt : OpaqueExtrinsic) {W : Type} :
    pool.submit_at a src xts = .panicked "not implemented" ∧
    pool.submit_one a src xt = .panicked "not implemented" ∧
    pool.submit_and_watch a src xt (W := W) = .panicked "not implemented" ∧
    (∀ r, pool.submit_at a src xts ≠ .ret r) ∧
    (∀ r, pool.submit_one a src xt ≠ .ret r) ∧
    (∀ r : Except PoolError W, pool.submit_and_watch a src xt ≠ .ret r) := by
  refine ⟨rfl, rfl, rfl, ?_, ?_, ?_⟩ <;> intro r h <;> cases h

/-- C6: invalidity reporting is a no-op: `Transactions.report_invalid`
returns the empty vector and leaves the pool unchanged, and
`TransactionsIterator.report_invalid` leaves the iterator — hence the
remaining iteration sequence — unchanged. -/
theorem report_invalid_is_noop (pool : Transactions) (a : Option Hash)
    {E : Type} (errs : List (Hash × Option E))
    (it : TransactionsIterator) (tx : PoolTransaction) :
    pool.report_invalid a errs = ([], pool) ∧
    it.report_invalid tx = it ∧
    (it.report_invalid tx).collect = it.collect :=
  ⟨rfl, rfl, rfl⟩

/-- C7: `testnet_genesis` is pure data formatting: the balances section
maps each endowed account to `1 << 60` (in order), the aura authorities
are exactly the first components of the authority pairs in order, the
grandpa authorities are exactly the second components each paired with
weight `1` in order, and the sudo key is `Some(root_key)`. -/
theorem testnet_genesis_formats_inputs (wasm : List Nat)
    (auths : List (AuraId × GrandpaId)) (root_key : AccountId)
    (endowed : List AccountId) (pr : Bool) :
    (testnet_genesis wasm auths root_key endowed pr).balances.balances
        = endowed.map (fun k => (k, 2 ^ 60)) ∧
    (∀ k b, (k, b) ∈
        (testnet_genesis wasm auths root_key endowed pr).balances.balances ↔
          k ∈ endowed ∧ b = 2 ^ 60) ∧
    (testnet_genesis wasm auths root_key endowed pr).aura.authorities
        = auths.map (fun x => x.1) ∧
    (testnet_genesis wasm auths root_key endowed pr).grandpa.authorities
        = auths.map (fun x => (x.2, 1)) ∧
    (testnet_genesis wasm auths root_key endowed pr).sudo_.key
        = some root_key := by
  refine ⟨rfl, ?_, rfl, rfl, rfl⟩
  intro k b
  simp only [testnet_genesis, List.mem_map]
  constructor
  · rintro ⟨a, ha, h⟩
    injection h with h1 h2
    exact ⟨h1 ▸ ha, h2.symm⟩
  · rintro ⟨hk, rfl⟩
    exact ⟨k, hk, rfl⟩

/-- C8: the `PurgeChain` arm runs the purge command iff the loaded chain
spec's id starts with `"dev"` or with `"local"`; for every other id it
returns the error `"Only development and local testnet chains can be
purged."` without running the purge. -/
theorem purge_chain_only_dev_or_local (id : String) :
    (purge_chain_arm id = .ranPurge ↔
        (strStartsWith id "dev" = true ∨ strStartsWith id "local" = true)) ∧
    (¬(strStartsWith id "dev" = true ∨ strStartsWith id "local" = true) →
        purge_chain_arm id =
          .refused
            "Only development and local testnet chains can be purged.") := by
  unfold purge_chain_arm
  rcases hd : strStartsWith id "dev" <;>
    rcases hl : strStartsWith id "local" <;>
      simp [hd, hl]

/-- C8 witness: at the concrete id `"mainnet"`, which starts with neither
`"dev"` nor `"local"`, the arm refuses with the exact error message. -/
theorem purge_chain_only_dev_or_local_witness :
    purge_chain_arm "mainnet" =
      .refused "Only development and local testnet chains can be purged." :=
  (purge_chain_only_dev_or_local "mainnet").2 (by decide)

/-- C9: for every string outside
`{"dev", "development", "local", "local_testnet"}`, `Alternative::from`
panics with `"Invalid chain spec name"`; hence `chain_spec::load_spec`
panics (returning neither `Ok` nor `Err`) — unlike `Cli::load_spec`, which
treats the unknown id as a file path and returns the outcome of
`ChainSpec::from_json_file` as a `Result`. -/
theorem load_spec_unknown_id_panics (s : String) (h1 : s ≠ "dev")
    (h2 : s ≠ "development") (h3 : s ≠ "local") (h4 : s ≠ "local_testnet") :
    ChainAlternative.fromStr s = .panicked "Invalid chain spec name" ∧
    (∀ (C : Type) (dev loc : Except String C),
        load_spec dev loc s = .panicked "Invalid chain spec name") ∧
    (∀ (C : Type) (dev loc : Except String C)
        (from_json_file : String → Except String C),
        Cli_load_spec dev loc from_json_file s = .ret (from_json_file s)) := by
  have hfrom : ChainAlternative.fromStr s =
      .panicked "Invalid chain spec name" := by
    unfold ChainAlternative.fromStr
    rw [if_neg, if_neg]
    · rintro (h | h) <;> [exact h3 h; exact h4 h]
    · rintro (h | h) <;> [exact h1 h; exact h2 h]
  refine ⟨hfrom, ?_, ?_⟩
  · intro C dev loc
    unfold load_spec
    rw [hfrom]
  · intro C dev loc from_json_file
    unfold Cli_load_spec
    rw [if_neg h1, if_neg h4]

/-- C9 witness: at the concrete unknown id `"my-custom-chain"`,
`Alternative::from` panics, `load_spec` panics, and `Cli::load_spec`
returns the file-loading outcome as a normal `Result`. -/
theorem load_spec_unknown_id_panics_witness :
    ChainAlternative.fromStr "my-custom-chain" =
      .panicked "Invalid chain spec name" ∧
    load_spec (Except.ok 0) (Except.ok 1) "my-custom-chain" =
      .panicked "Invalid chain spec name" ∧
    Cli_load_spec (Except.ok 0) (Except.ok 1)
        (fun _ => Except.error "no such file") "my-custom-chain" =
      .ret (Except.error "no such file") := by
  obtain ⟨hf, hl, hc⟩ := load_spec_unknown_id_panics "my-custom-chain"
    (by decide) (by decide) (by decide) (by decide)
  exact ⟨hf, hl Nat (Except.ok 0) (Except.ok 1),
    hc Nat (Except.ok 0) (Except.ok 1) (fun _ => Except.error "no such file")⟩

/-- C10: every benchmark measures nothing: for every mode argument (of any
mode type), `ConstructionBenchmark.run`, `PoolBenchmark.run`, and
`ImportBenchmark.run` each return `Duration::from_secs(0)` — which is zero
— and leave the benchmark state unchanged. -/
theorem benchmarks_measure_nothing {M : Type} (m : M)
    (cb : ConstructionBenchmark) (pb : PoolBenchmark)
    (ib : ImportBenchmark) :
    cb.run m = (Duration.from_secs 0, cb) ∧
    pb.run m = (Duration.from_secs 0, pb) ∧
    ib.run m = (Duration.from_secs 0, ib) ∧
    Duration.from_secs 0 = 0 :=
  ⟨rfl, rfl, rfl, rfl⟩

/-- C2 counterexample: `From<OpaqueExtrinsic>` does NOT store a content
hash.  Concretely, `from` gives the all-zero hash to every blob (shown at
the explicit inputs `[1, 2, 3]` and `[]`), so there is no function of the
blob's bytes that distinguishes even two blobs — as any genuine content
hash must — and agrees with the stored hash everywhere. -/
theorem fromExtrinsic_hash_not_content_hash :
    (PoolTransaction.fromExtrinsic [1, 2, 3]).getHash = Hash.zero ∧
    (PoolTransaction.fromExtrinsic []).getHash = Hash.zero ∧
    ¬ ∃ H : OpaqueExtrinsic → Hash,
        (∃ a b : OpaqueExtrinsic, H a ≠ H b) ∧
        (∀ e : OpaqueExtrinsic,
          (PoolTransaction.fromExtrinsic e).getHash = H e) := by
  refine ⟨rfl, rfl, ?_⟩
  rintro ⟨H, ⟨a, b, hab⟩, hall⟩
  have ha : Hash.zero = H a := hall a
  have hb : Hash.zero = H b := hall b
  exact hab (ha ▸ hb ▸ rfl)

/-- C2 amended: for every opaque extrinsic `e`, `From(e)` wraps the blob
with the constant all-zero hash: `data()` returns `e` and `hash()` returns
`Hash::zero()`, independent of the blob's content — no content hash is
computed. -/
theorem fromExtrinsic_wraps_blob_with_zero_hash (e : OpaqueExtrinsic) :
    (PoolTransaction.fromExtrinsic e).getData = e ∧
    (PoolTransaction.fromExtrinsic e).getHash = Hash.zero :=
  ⟨rfl, rfl⟩

/-- C1 witness: a concrete two-element pool, iterated at block hash 5,
yields exactly its stored handles in order. -/
theorem ready_at_yields_stored_in_order_witness :
    (((Transactions.mk
          [PoolTransaction.mk [1] 0, PoolTransaction.mk [2, 3] 7]).ready_at
        5).1).collect
      = [PoolTransaction.mk [1] 0, PoolTransaction.mk [2, 3] 7] :=
  ready_at_yields_stored_in_order
    (Transactions.mk [PoolTransaction.mk [1] 0, PoolTransaction.mk [2, 3] 7]) 5

/-- C3 witness: on a concrete pool, calls at block hashes 1 and 2 return
the same iterator, and the pool is unchanged. -/
theorem ready_at_fixed_batch_and_pure_witness :
    ((Transactions.mk [PoolTransaction.mk [4] 0]).ready_at 1).1
        = ((Transactions.mk [PoolTransaction.mk [4] 0]).ready_at 2).1 ∧
    (((Transactions.mk [PoolTransaction.mk [4] 0]).ready_at 1).1).collect
        = (((Transactions.mk [PoolTransaction.mk [4] 0]).ready_at 2).1).collect ∧
    ((Transactions.mk [PoolTransaction.mk [4] 0]).ready_at 1).2
        = Transactions.mk [PoolTransaction.mk [4] 0] :=
  ready_at_fixed_batch_and_pure (Transactions.mk [PoolTransaction.mk [4] 0]) 1 2

/-- C4 witness: on a concrete transaction, `priority` panics with
"not implemented". -/
theorem pool_transaction_metadata_panics_witness :
    (PoolTransaction.mk [1] 0).priority = .panicked "not implemented" :=
  (pool_transaction_metadata_panics (PoolTransaction.mk [1] 0)).1

/-- C5 witness: on a concrete pool and inputs, `submit_one` panics with
"not implemented". -/
theorem submit_operations_panic_witness :
    (Transactions.mk []).submit_one 0 () [2] = .panicked "not implemented" :=
  (submit_operations_panic (Transactions.mk []) 0 () [[1]] [2]
    (W := Unit)).2.1

/-- C6 witness: on a concrete pool, iterator, and report map,
`report_invalid` returns the empty vector and changes nothing. -/
theorem report_invalid_is_noop_witness :
    (Transactions.mk [PoolTransaction.mk [1] 0]).report_invalid (some 3)
        [(0, some ())]
      = ([], Transactions.mk [PoolTransaction.mk [1] 0]) ∧
    (TransactionsIterator.mk [PoolTransaction.mk [1] 0]).report_invalid
        (PoolTransaction.mk [1] 0)
      = TransactionsIterator.mk [PoolTransaction.mk [1] 0] ∧
    ((TransactionsIterator.mk [PoolTransaction.mk [1] 0]).report_invalid
        (PoolTransaction.mk [1] 0)).collect
      = (TransactionsIterator.mk [PoolTransaction.mk [1] 0]).collect :=
  report_invalid_is_noop (Transactions.mk [PoolTransaction.mk [1] 0]) (some 3)
    [(0, some ())] (TransactionsIterator.mk [PoolTransaction.mk [1] 0])
    (PoolTransaction.mk [1] 0)

/-- C7 witness: concrete genesis with one authority pair `(1, 2)`, root key
`3` and endowed account `4`: the balances section endows `4` with
`2 ^ 60`. -/
theorem testnet_genesis_formats_inputs_witness :
    (testnet_genesis [] [(1, 2)] 3 [4] true).balances.balances
      = [(4, 2 ^ 60)] :=
  (testnet_genesis_formats_inputs [] [(1, 2)] 3 [4] true).1

/-- C10 witness: concrete benchmark states, run with a concrete (unit)
mode, return zero and are unchanged. -/
theorem benchmarks_measure_nothing_witness :
    (ConstructionBenchmark.mk "" "").run ()
        = (Duration.from_secs 0, ConstructionBenchmark.mk "" "") ∧
    (PoolBenchmark.mk "").run ()
        = (Duration.from_secs 0, PoolBenchmark.mk "") ∧
    (ImportBenchmark.mk "" () "").run ()
        = (Duration.from_secs 0, ImportBenchmark.mk "" () "") ∧
    Duration.from_secs 0 = 0 :=
  benchmarks_measure_nothing () (ConstructionBenchmark.mk "" "")
    (PoolBenchmark.mk "") (ImportBenchmark.mk "" () "")

/-- C2 (amended) witness: the concrete blob `[9, 9]` is wrapped with its
own bytes as data and the all-zero hash. -/
theorem fromExtrinsic_wraps_blob_with_zero_hash_witness :
    (PoolTransaction.fromExtrinsic [9, 9]).getData = [9, 9] ∧
    (PoolTransaction.fromExtrinsic [9, 9]).getHash = Hash.zero :=
  fromExtrinsic_wraps_blob_with_zero_hash [9, 9]
